import Mathlib

/-!
Verification of the netlink-ng client library: a shallow embedding of its
session/transport layer (`src/handle.rs`) and of the domain mappers for
addresses (`src/addr.rs`), routes (`src/route.rs`) and links (`src/link.rs`),
together with theorems settling the specification claims about them.

Machine integers are modelled as `Nat` (unsigned) or `Int` (signed); byte
buffers as `List Nat`; fallible paths as `Option` / `Except`.
-/

namespace NetlinkNg

/-! ## Protocol constants (from the netlink headers used by the source) -/

def NLM_F_MULTIPART : Nat := 2

def RT_TABLE_UNSPEC : Nat := 0

def RT_TABLE_MAIN : Nat := 254

def RT_SCOPE_UNIVERSE : Nat := 0

def RTPROT_UNSPEC : Nat := 0

def RTPROT_BOOT : Nat := 3

def RTN_UNSPEC : Nat := 0

def RTN_UNICAST : Nat := 1

def RTM_F_CLONED : Nat := 0x200

def IFF_MULTICAST : Nat := 0x1000

def AF_INET : Nat := 2

def AF_INET6 : Nat := 10

/-- Constant `RT_FILTER_OIF` from `src/route.rs` `mod constants`. -/
def RT_FILTER_OIF : Nat := 1 <<< 6

/-- Constant `RT_FILTER_TABLE` from `src/route.rs` `mod constants`. -/
def RT_FILTER_TABLE : Nat := 1 <<< 10

/-! ## Session layer: frames

`NetlinkMessage<T>` is modelled by `Frame α`: a header (sequence number and
flags) plus a payload.  The error payload's status code is
an option of a nonzero integer, mirroring `Option<NonZeroI32>` in
`netlink_packet_core::ErrorMessage` (a wire code of 0 deserializes to `None`,
a nonzero code to `Some`). -/

structure NlHeader where
  sequence_number : Nat
  flags : Nat
  deriving DecidableEq

inductive NlPayload (α : Type) where
  | Done
  | Error (code : Option { c : Int // c ≠ 0 })
  | Noop
  | Overrun
  | InnerMessage (m : α)

structure Frame (α : Type) where
  header : NlHeader
  payload : NlPayload α

/-- Typed failure outcomes of `NetlinkHandle::recv` (`src/handle.rs:126-178`):
the two `std::io::Error` kinds raised for the two special status codes, the
generic `bail!` errors for any other nonzero status code, a sequence
mismatch, and the `bail!` branches for unimplemented payload kinds. -/
inductive RecvError where
  | notFound
  | alreadyExists
  | protocolError (code : Int)
  | seqMismatch (got expected : Nat)
  | unimplemented (what : String)
  deriving DecidableEq

/-- One iteration of the `while let` body of `NetlinkHandle::recv`
(`src/handle.rs:130-174`): either continue the loop with a new accumulated
result list, or stop the call with a final outcome. -/
inductive Step (α : Type) where
  | cont (acc : List α)
  | stop (out : Except RecvError (List α))

/-- The body of the receive loop of `NetlinkHandle::recv`
(`src/handle.rs:131-174`), applied to one extracted frame.  `seq` is the
session's current sequence number, `acc` the results accumulated so far. -/
def processFrame (seq : Nat) (acc : List α) (f : Frame α) : Step α :=
  if f.header.sequence_number ≠ seq then
    -- ignore old packet msg
    if f.header.sequence_number < seq then Step.cont acc
    else Step.stop (Except.error (RecvError.seqMismatch f.header.sequence_number seq))
  else
    let is_multi := (f.header.flags &&& NLM_F_MULTIPART) ≠ 0
    match f.payload with
    | NlPayload.Done => Step.stop (Except.ok acc)
    | NlPayload.Error code =>
      match code with
      | some c =>
        if c.val = -19 then Step.stop (Except.error RecvError.notFound)
        else if c.val = -17 then Step.stop (Except.error RecvError.alreadyExists)
        else Step.stop (Except.error (RecvError.protocolError c.val))
      | none => Step.stop (Except.ok acc)
    | NlPayload.Noop => Step.stop (Except.error (RecvError.unimplemented "loop"))
    | NlPayload.Overrun => Step.stop (Except.error (RecvError.unimplemented "overrun"))
    | NlPayload.InnerMessage m =>
      if is_multi then Step.cont (acc ++ [m]) else Step.stop (Except.ok (acc ++ [m]))

/-- The receive loop of `NetlinkHandle::recv` over the stream of frames the
session observes (the successive yields of `next_msg`).  An exhausted stream
models `next_msg` ending the `while let` (its error path), upon which `recv`
returns `Ok(result)` (`src/handle.rs:177`). -/
def recvLoop (seq : Nat) (acc : List α) : List (Frame α) → Except RecvError (List α)
  | [] => Except.ok acc
  | f :: fs =>
    match processFrame seq acc f with
    | Step.cont acc2 => recvLoop seq acc2 fs
    | Step.stop out => out

/-- An inner message frame with the multipart flag set and the expected
sequence number, as reassembled by the session. -/
def mkMultiInner (seq : Nat) (m : α) : Frame α :=
  ⟨⟨seq, NLM_F_MULTIPART⟩, NlPayload.InnerMessage m⟩

/-- The `Done` marker frame ending a multipart stream. -/
def mkDone (α : Type) (seq : Nat) : Frame α :=
  ⟨⟨seq, NLM_F_MULTIPART⟩, NlPayload.Done⟩

/-! ## Buffer-level frame extraction (`src/handle.rs:52-125`)

Byte buffers are `List Nat` (one entry per byte).  The generic deserializer
`NetlinkMessage::<T>::deserialize` is an external collaborator of the source;
it is abstracted as a `parse` argument, mirroring the type parameter `T` of
`NetlinkHandle::decode`. -/

/-- The 32-bit length field at the front of a frame, host (little-endian)
byte order, as read by `NetlinkBuffer::length()`. -/
def leU32 (src : List Nat) : Nat :=
  src.getD 0 0 + 256 * src.getD 1 0 + 65536 * src.getD 2 0 +
    16777216 * src.getD 3 0

/-- Model of `NetlinkBuffer::new_checked(src).map(|b| b.length())`: the checks of the
lower codec — at least 4 bytes to read the length field, the declared length
not exceeding the buffer, and not below the 16-byte header size.  `none`
models a truncated or corrupt header. -/
def newCheckedLength (src : List Nat) : Option Nat :=
  if src.length < 4 then none
  else
    let len := leU32 src
    if len > src.length then none
    else if len < 16 then none
    else some len

theorem newCheckedLength_bounds {src : List Nat} {len : Nat}
    (h : newCheckedLength src = some len) : 16 ≤ len ∧ len ≤ src.length := by
  unfold newCheckedLength at h
  split at h
  · exact absurd h (by simp)
  · simp only [] at h
    split at h
    · exact absurd h (by simp)
    · split at h
      · exact absurd h (by simp)
      · cases h
        omega

/-- Model of `NetlinkHandle::decode` (`src/handle.rs:52-103`): pull one frame off the
front of the buffer.  The two nested `is_empty` checks of the source collapse
into one.  A failed header check clears the buffer and yields no frame
(`src.clear(); return Ok(None)`); a frame whose bytes fail to deserialize is
skipped and the loop continues on the rest of the buffer. -/
def decode (parse : List Nat → Option (Frame α)) (src : List Nat) :
    Option (Frame α) × List Nat :=
  if src.isEmpty then (none, src)
  else
    match h : newCheckedLength src with
    | none => (none, [])
    | some len =>
      let bytes := src.take len
      let rest := src.drop len
      match parse bytes with
      | some packet => (some packet, rest)
      | none => decode parse rest
termination_by src.length
decreasing_by
  have hb := newCheckedLength_bounds h
  simp only [List.length_drop]
  omega

/-- Model of `NetlinkHandle::next_msg` (`src/handle.rs:104-125`): loop `decode` and,
whenever the buffer yields no frame, clear it and refill it from the socket
(modelled as the list of datagrams still to arrive).  A failing socket read —
the only way the source's loop ends without a frame — is modelled by the
datagram list being exhausted and yields `none`, which ends the caller's
`while let` loop. -/
def next_msg (parse : List Nat → Option (Frame α)) :
    List Nat → List (List Nat) → Option (Frame α × List Nat × List (List Nat))
  | src, datagrams =>
    match decode parse src with
    | (some msg, rest) => some (msg, rest, datagrams)
    | (none, _) =>
      match datagrams with
      | [] => none
      | d :: ds => next_msg parse d ds

/-- Size of a buffer-and-pending-datagrams configuration, used as the
termination measure of the receive loop. -/
def bufMeasure (src : List Nat) (datagrams : List (List Nat)) : Nat :=
  src.length + datagrams.length + (datagrams.map List.length).sum

theorem decode_rest_lt {α : Type} (parse : List Nat → Option (Frame α)) :
    ∀ (n : Nat) (src : List Nat), src.length ≤ n → ∀ (f : Frame α) (rest : List Nat),
      decode parse src = (some f, rest) → rest.length < src.length := by
  intro n
  induction n with
  | zero =>
    intro src hle f rest hd
    have hsrc : src = [] := List.length_eq_zero.mp (Nat.le_zero.mp hle)
    rw [decode] at hd
    simp [hsrc] at hd
  | succ n ih =>
    intro src hle f rest hd
    rw [decode] at hd
    split at hd
    · simp at hd
    · rename_i hne
      split at hd
      · simp at hd
      · rename_i len hlen
        have hb := newCheckedLength_bounds hlen
        simp only [] at hd
        split at hd
        · cases hd
          simp only [List.length_drop]
          omega
        · have hlt : (src.drop len).length < src.length := by
            simp only [List.length_drop]; omega
          have hrest := ih (src.drop len) (by omega) f rest hd
          omega

theorem next_msg_measure {α : Type} (parse : List Nat → Option (Frame α)) :
    ∀ (datagrams : List (List Nat)) (src : List Nat) (f : Frame α)
      (src2 : List Nat) (ds2 : List (List Nat)),
      next_msg parse src datagrams = some (f, src2, ds2) →
      bufMeasure src2 ds2 < bufMeasure src datagrams := by
  intro datagrams
  induction datagrams with
  | nil =>
    intro src f src2 ds2 h
    rw [next_msg] at h
    split at h
    · rename_i msg rest hdec
      cases h
      have := decode_rest_lt parse src.length src (Nat.le_refl _) _ _ hdec
      simp [bufMeasure]
      omega
    · simp at h
  | cons d ds ih =>
    intro src f src2 ds2 h
    rw [next_msg] at h
    split at h
    · rename_i msg rest hdec
      cases h
      have := decode_rest_lt parse src.length src (Nat.le_refl _) _ _ hdec
      simp [bufMeasure]
      omega
    · have hrec := ih d f src2 ds2 h
      simp [bufMeasure] at hrec ⊢
      omega

/-- Model of `NetlinkHandle::recv` (`src/handle.rs:126-178`) at the buffer level: the
`while let` loop pulling frames out of the buffer and the pending datagrams
through `next_msg`, classifying each with the loop body, and returning the
accumulated results when `next_msg` yields nothing. -/
def recvLoopBuf (parse : List Nat → Option (Frame α)) (seq : Nat)
    (acc : List α) (src : List Nat) (datagrams : List (List Nat)) :
    Except RecvError (List α) :=
  match h : next_msg parse src datagrams with
  | none => Except.ok acc
  | some (msg, src2, ds2) =>
    match processFrame seq acc msg with
    | Step.cont acc2 => recvLoopBuf parse seq acc2 src2 ds2
    | Step.stop out => out
termination_by bufMeasure src datagrams
decreasing_by
  exact next_msg_measure parse datagrams src _ _ _ h

/-! ## IP addresses and networks (`std::net::IpAddr`, `ipnetwork` crate)

An IPv4 address is a `Nat` below 2^32, an IPv6 address a `Nat` below 2^128;
both are stored most-significant-octet first on the wire. -/

inductive IpAddr where
  | v4 (a : Nat)
  | v6 (a : Nat)
  deriving DecidableEq

def IpAddr.is_ipv4 : IpAddr → Bool
  | IpAddr.v4 _ => true
  | IpAddr.v6 _ => false

/-- Model of `IpNetwork`: an address together with its mask's length in bits. -/
structure IpNetwork where
  ip : IpAddr
  prefixLen : Nat
  deriving DecidableEq

/-- The full network mask of an `IpNetwork` as a number
(`IpNetwork::mask()`). -/
def IpNetwork.maskNat (n : IpNetwork) : Nat :=
  match n.ip with
  | IpAddr.v4 _ => 2 ^ 32 - 2 ^ (32 - n.prefixLen)
  | IpAddr.v6 _ => 2 ^ 128 - 2 ^ (128 - n.prefixLen)

/-- Model of `IpNetwork::broadcast()`: the stored address with all host bits set
(`addr | !mask`). -/
def IpNetwork.broadcastAddr (n : IpNetwork) : IpAddr :=
  match n.ip with
  | IpAddr.v4 a => IpAddr.v4 (a ||| (2 ^ (32 - n.prefixLen) - 1))
  | IpAddr.v6 a => IpAddr.v6 (a ||| (2 ^ (128 - n.prefixLen) - 1))

/-- Big-endian octets of a number, most significant first. -/
def natToBytes (width : Nat) (a : Nat) : List Nat :=
  (List.range width).map (fun i => a / 2 ^ (8 * (width - 1 - i)) % 256)

/-- Model of `utils::ip_to_bytes` (`src/utils.rs:8-13`). -/
def ip_to_bytes : IpAddr → List Nat
  | IpAddr.v4 a => natToBytes 4 a
  | IpAddr.v6 a => natToBytes 16 a

/-- Model of `utils::ip_to_family` (`src/utils.rs:15-20`). -/
def ip_to_family : IpAddr → Nat
  | IpAddr.v4 _ => AF_INET
  | IpAddr.v6 _ => AF_INET6

/-! ## Address mapper (`src/addr.rs`) -/

/-- The `Addr` struct (`src/addr.rs:13-24`), with its `Default` values
(`src/addr.rs:34-48`).  Lifetime fields are carried but unused by the encode
path. -/
structure Addr where
  ipnet : IpNetwork := ⟨IpAddr.v4 0, 0⟩
  label : String := ""
  flags : Nat := 0
  scope : Int := 0
  peer : Option IpNetwork := none
  broadcast : Option IpAddr := none
  preferred_lft : Int := 0
  valid_lft : Int := 0
  link_index : Nat := 0

structure AddressHeader where
  family : Nat := 0
  prefix_len : Nat := 0
  flags : Nat := 0
  scope : Nat := 0
  index : Nat := 0
  deriving DecidableEq

/-- The address attributes emitted by `addr_handle`
(`netlink_packet_route::address::Nla`). -/
inductive AddrNla where
  | Local (b : List Nat)
  | Address (b : List Nat)
  | Broadcast (b : List Nat)
  | Label (s : String)
  deriving DecidableEq

structure AddressMessage where
  header : AddressHeader := {}
  nlas : List AddrNla := []
  deriving DecidableEq

/-- The local mask selection of `addr_handle` (`src/addr.rs:65-68`): the
address's own mask, replaced by the peer's mask when a peer network is
supplied.  (The selected mask is bound to `_mask` in the source and feeds
nothing downstream.) -/
def addr_selected_mask (addr : Addr) : Nat :=
  match addr.peer with
  | some addr_peer => addr_peer.maskNat
  | none => addr.ipnet.maskNat

/-- The request message constructed by `addr_handle` (`src/addr.rs:61-96`),
common to add and delete (the request type only chooses the envelope
constructor). -/
def addr_handle_msg (link_idx : Nat) (addr : Addr) : AddressMessage :=
  let _mask := addr_selected_mask addr
  let prefixLen := addr.ipnet.prefixLen
  let header : AddressHeader :=
    { index := link_idx
      scope := ((addr.scope % 256).toNat)
      prefix_len := prefixLen
      family := ip_to_family addr.ipnet.ip }
  let local_addr_vec := ip_to_bytes addr.ipnet.ip
  let peer_addr_vec :=
    match addr.peer with
    | some peer => ip_to_bytes peer.ip
    | none => local_addr_vec
  let nlas := [AddrNla.Local local_addr_vec, AddrNla.Address peer_addr_vec]
  let nlas := nlas ++
    (if addr.ipnet.ip.is_ipv4 then
      let broadcast_addr :=
        if addr.broadcast.isNone && decide (prefixLen < 31) then
          some addr.ipnet.broadcastAddr
        else addr.broadcast
      match broadcast_addr with
      | some b => [AddrNla.Broadcast (ip_to_bytes b)]
      | none => []
    else [])
  let nlas := nlas ++ (if addr.label ≠ "" then [AddrNla.Label addr.label] else [])
  { header := header, nlas := nlas }

/-- A deserializer that accepts no byte string, used to instantiate the
generic frame extractor in witnesses. -/
def noParse (α : Type) : List Nat → Option (Frame α) := fun _ => none

/-- A sample point-to-point address (10.0.0.1/24 with peer 10.0.0.2/16) used
as a concrete witness input. -/
def addrPeerSample : Addr :=
  { ipnet := ⟨IpAddr.v4 0x0A000001, 24⟩, peer := some ⟨IpAddr.v4 0x0A000002, 16⟩ }

/-! ## Route mapper (`src/route.rs`) -/

/-- The `Route` struct (`src/route.rs:47-83`), restricted to the fields read
by the encode path (`route_handle`), the decode path (`msg_to_route`) and
the list filter (`route_list_filtered`); the advisory metric fields (mtu,
window, congestion parameters, …) are carried by the source struct but never
read by those paths and are omitted here.  Defaults follow `Default`. -/
structure Route where
  link_index : Nat := 0
  scope : Nat := 0
  dst : Option IpNetwork := none
  src : Option IpAddr := none
  gw : Option IpAddr := none
  protocol : Int := 0
  priority : Nat := 0
  family : Int := 0
  table : Option Nat := none
  rtype : Int := 0
  tos : Int := 0
  flags : Nat := 0
  mpls_dst : Option Int := none
  deriving DecidableEq

structure RouteHeader where
  address_family : Nat := 0
  destination_prefix_length : Nat := 0
  source_prefix_length : Nat := 0
  tos : Nat := 0
  table : Nat := 0
  protocol : Nat := 0
  scope : Nat := 0
  kind : Nat := 0
  flags : Nat := 0
  deriving DecidableEq

/-- The route attributes touched by the source
(`netlink_packet_route::route::Nla`). -/
inductive RouteNla where
  | Destination (b : List Nat)
  | Gateway (b : List Nat)
  | Table (n : Nat)
  | Oif (n : Nat)
  | Priority (n : Nat)
  | PrefSource (b : List Nat)
  deriving DecidableEq

structure RouteMessage where
  header : RouteHeader := {}
  nlas : List RouteNla := []
  deriving DecidableEq

/-- Model of `new_route_msg` (`src/route.rs:160-167`). -/
def new_route_msg : RouteMessage :=
  { header := { table := RT_TABLE_MAIN, scope := RT_SCOPE_UNIVERSE,
                protocol := RTPROT_BOOT, kind := RTN_UNICAST } }

/-- The request message constructed by `route_handle` (`src/route.rs:169-198`),
up to the point where the envelope is chosen and sent.  The `bail!` when
destination, source, gateway and MPLS destination are all absent becomes the
error case. -/
def route_handle_msg (route : Route) : Except String RouteMessage :=
  if route.dst.isNone && route.src.isNone && route.gw.isNone &&
      route.mpls_dst.isNone then
    Except.error "route dst, src, gw can not be all none"
  else
    let msg : RouteMessage := new_route_msg
    let msg :=
      match route.dst with
      | some dst_ip_addr =>
        { msg with
          header := { msg.header with
                      destination_prefix_length := dst_ip_addr.prefixLen }
          nlas := msg.nlas ++ [RouteNla.Destination (ip_to_bytes dst_ip_addr.ip)] }
      | none => msg
    let gw := route.gw.getD (IpAddr.v4 0)
    let msg := { msg with nlas := msg.nlas ++ [RouteNla.Gateway (ip_to_bytes gw)] }
    let family := ip_to_family gw
    let hdr2 := { msg.header with address_family := family, flags := route.flags }
    let msg := { msg with header := hdr2 }
    let msg :=
      match route.table with
      | some table =>
        if table > 0 then
          if table > 255 then
            { msg with header := { msg.header with table := RT_TABLE_UNSPEC }
                       nlas := msg.nlas ++ [RouteNla.Table table] }
          else
            { msg with header := { msg.header with table := table } }
        else msg
      | none => msg
    let msg := { msg with header := { msg.header with table := RT_TABLE_MAIN } }
    let msg := { msg with nlas := msg.nlas ++ [RouteNla.Oif route.link_index] }
    Except.ok msg

/-- The output-interface check at the end of the filter loop of
`route_list_filtered` (`src/route.rs:246-250`): `true` when the route is not
skipped by the OIF filter. -/
def oif_filter_keep (route_filter : Option Route) (filter_mask : Nat)
    (route : Route) : Bool :=
  match route_filter with
  | some filter =>
    !(decide (filter_mask &&& RT_FILTER_OIF ≠ 0) &&
      decide (route.link_index ≠ filter.link_index))
  | none => true

/-- The per-route decision of the filter loop of `route_list_filtered`
(`src/route.rs:233-252`): `true` exactly when the loop body reaches
`routes.push(route)` instead of a `continue`. -/
def route_keep (route_filter : Option Route) (filter_mask : Nat)
    (route : Route) : Bool :=
  if route.flags &&& RTM_F_CLONED ≠ 0 then false
  else if (match route.table with
           | some table =>
             if table ≠ RT_TABLE_MAIN then
               route_filter.isNone ||
                 (route_filter.isSome && (filter_mask &&& RT_FILTER_TABLE == 0))
             else false
           | none => false) then false
  else oif_filter_keep route_filter filter_mask route

/-- The filtering pass of `route_list_filtered` over the decoded routes. -/
def route_list_filter (route_filter : Option Route) (filter_mask : Nat)
    (routes : List Route) : List Route :=
  routes.filter (route_keep route_filter filter_mask)

/-! ## Link mapper (`src/link.rs`): VXLAN attributes and set-MTU -/

/-- The `Vxlan` struct (`src/nl_type.rs:41-65`) with its `Default` values. -/
structure Vxlan where
  vxlan_id : Nat := 0
  vtep_dev_index : Nat := 0
  src_addr : Option IpAddr := none
  group : Option IpAddr := none
  ttl : Int := 0
  tos : Int := 0
  learning : Bool := false
  proxy : Bool := false
  rsc : Bool := false
  l2miss : Bool := false
  l3miss : Bool := false
  udp_csum : Bool := false
  udp6_zero_csum_tx : Bool := false
  udp6_zero_csum_rx : Bool := false
  no_age : Bool := false
  gbp : Bool := false
  flow_based : Bool := false
  age : Nat := 0
  limit : Nat := 0
  port : Nat := 0
  port_low : Nat := 0
  port_high : Nat := 0

/-- Model of `netlink_packet_route::link::nlas::InfoVxlan`, the nested VXLAN
attributes emitted by `add_vxlan_attrs`. -/
inductive InfoVxlan where
  | Id (n : Nat)
  | Link (n : Nat)
  | Local (b : List Nat)
  | Local6 (b : List Nat)
  | Group (b : List Nat)
  | Group6 (b : List Nat)
  | Ttl (n : Nat)
  | Tos (n : Nat)
  | Learning (n : Nat)
  | Proxy (n : Nat)
  | Rsc (n : Nat)
  | L2Miss (n : Nat)
  | L3Miss (n : Nat)
  | UDPZeroCsumTX (n : Nat)
  | UDPZeroCsumRX (n : Nat)
  | UDPCsum (n : Nat)
  | Gbp (n : Nat)
  | Ageing (n : Nat)
  | Limit (n : Nat)
  | Port (n : Nat)
  | PortRange (p : Nat × Nat)
  deriving DecidableEq

/-- The VXLAN attribute vector assembled by `add_vxlan_attrs`
(`src/link.rs:447-520`): each conditional `push` of the source becomes one
appended guarded segment, in source order.  (`flow_based` guards an empty
`todo` block and emits nothing.) -/
def add_vxlan_attrs_vec (vxlan : Vxlan) : List InfoVxlan :=
  [InfoVxlan.Id vxlan.vxlan_id]
  ++ (if vxlan.vtep_dev_index > 0 then [InfoVxlan.Link vxlan.vtep_dev_index] else [])
  ++ (match vxlan.src_addr with
      | some src_addr =>
        if src_addr.is_ipv4 then [InfoVxlan.Local (ip_to_bytes src_addr)]
        else [InfoVxlan.Local6 (ip_to_bytes src_addr)]
      | none => [])
  ++ (match vxlan.group with
      | some group =>
        if group.is_ipv4 then [InfoVxlan.Group (ip_to_bytes group)]
        else [InfoVxlan.Group6 (ip_to_bytes group)]
      | none => [])
  ++ (if vxlan.ttl > 0 then [InfoVxlan.Ttl ((vxlan.ttl % 256).toNat)] else [])
  ++ (if vxlan.tos > 0 then [InfoVxlan.Tos ((vxlan.tos % 256).toNat)] else [])
  ++ (if vxlan.learning then [InfoVxlan.Learning 1] else [])
  ++ (if vxlan.proxy then [InfoVxlan.Proxy 1] else [])
  ++ (if vxlan.rsc then [InfoVxlan.Rsc 1] else [])
  ++ (if vxlan.l2miss then [InfoVxlan.L2Miss 1] else [])
  ++ (if vxlan.l3miss then [InfoVxlan.L3Miss 1] else [])
  ++ (if vxlan.udp6_zero_csum_tx then [InfoVxlan.UDPZeroCsumTX 1] else [])
  ++ (if vxlan.udp6_zero_csum_rx then [InfoVxlan.UDPZeroCsumRX 1] else [])
  ++ (if vxlan.udp_csum then [InfoVxlan.UDPCsum 1] else [])
  ++ (if vxlan.gbp then [InfoVxlan.Gbp 1] else [])
  ++ (if vxlan.no_age then [InfoVxlan.Ageing 0]
      else if vxlan.age > 0 then [InfoVxlan.Ageing vxlan.age] else [])
  ++ (if vxlan.limit > 0 then [InfoVxlan.Limit vxlan.limit] else [])
  ++ (if vxlan.port > 0 then [InfoVxlan.Port vxlan.port] else [])
  ++ (if vxlan.port_low > 0 ∧ vxlan.port_high > 0 then
        [InfoVxlan.PortRange (vxlan.port_low, vxlan.port_high)] else [])

structure LinkHeader where
  interface_family : Nat := 0
  index : Nat := 0
  link_layer_type : Nat := 0
  flags : Nat := 0
  change_mask : Nat := 0
  deriving DecidableEq

/-- The link attributes touched by the set-MTU path
(`netlink_packet_route::link::nlas::Nla`). -/
inductive LinkNla where
  | Mtu (n : Nat)
  | Master (n : Nat)
  deriving DecidableEq

structure LinkMessage where
  header : LinkHeader := {}
  nlas : List LinkNla := []
  deriving DecidableEq

/-- The set-link request built by `link_set_mtu` (`src/link.rs:720-728`): a
default message whose header gets the link index, the multicast interface
flag or-ed into both `flags` and `change_mask`, and a single MTU
attribute. -/
def link_set_mtu_msg (index mtu : Nat) : LinkMessage :=
  { header := { index := index, flags := 0 ||| IFF_MULTICAST,
                change_mask := 0 ||| IFF_MULTICAST }
    nlas := [LinkNla.Mtu mtu] }

end NetlinkNg

namespace NetlinkNg

/-! ## Theorems for the session receive loop -/

/-- C1: a reply frame carrying an `Error` payload, received with the expected
sequence number, is classified by its status code: `-19` (no such entity)
fails the call with `NotFound`; `-17` (entity exists) fails it with
`AlreadyExists`; an absent code (the zero/success wire sentinel, which
deserializes to `None` because the code field is a nonzero integer option)
terminates the call successfully with the results accumulated so far; any
other nonzero code fails with a generic protocol error carrying that code. -/
theorem error_payload_classification {α : Type} (seq : Nat) (acc : List α)
    (fs : List (Frame α)) (hdr : NlHeader) (hseq : hdr.sequence_number = seq) :
    recvLoop seq acc (⟨hdr, NlPayload.Error none⟩ :: fs) = Except.ok acc ∧
    (∀ (c : Int) (hc : c ≠ 0),
      recvLoop seq acc (⟨hdr, NlPayload.Error (some ⟨c, hc⟩)⟩ :: fs) =
        if c = -19 then Except.error RecvError.notFound
        else if c = -17 then Except.error RecvError.alreadyExists
        else Except.error (RecvError.protocolError c)) := by
  constructor
  · simp [recvLoop, processFrame, hseq]
  · intro c hc
    by_cases h19 : c = -19
    · simp [recvLoop, processFrame, hseq, h19]
    · by_cases h17 : c = -17
      · simp [recvLoop, processFrame, hseq, h19, h17]
      · simp [recvLoop, processFrame, hseq, h19, h17]

/-- Witness for C1: concrete instantiation at sequence number 1 with status
code −19, yielding the `NotFound` failure. -/
theorem error_payload_classification_witness :
    recvLoop 1 ([] : List Nat)
      [⟨⟨1, 0⟩, NlPayload.Error (some ⟨-19, by decide⟩)⟩] =
      Except.error RecvError.notFound := by
  have h := (error_payload_classification 1 ([] : List Nat) [] ⟨1, 0⟩ rfl).2
    (-19) (by decide)
  simpa using h

/-- C2: a frame whose sequence number is strictly below the session's
expected sequence number is discarded — the loop continues on the remaining
stream with the accumulated results unchanged; a frame whose sequence number
differs from the expected one but is not below it fails the call with a
sequence-mismatch error. -/
theorem stale_frame_discarded {α : Type} (seq : Nat) (acc : List α)
    (f : Frame α) (fs : List (Frame α)) :
    (f.header.sequence_number < seq →
      recvLoop seq acc (f :: fs) = recvLoop seq acc fs) ∧
    (f.header.sequence_number ≠ seq → ¬ f.header.sequence_number < seq →
      recvLoop seq acc (f :: fs) =
        Except.error (RecvError.seqMismatch f.header.sequence_number seq)) := by
  constructor
  · intro hlt
    have hne : f.header.sequence_number ≠ seq := Nat.ne_of_lt hlt
    simp [recvLoop, processFrame, hne, hlt]
  · intro hne hnlt
    simp [recvLoop, processFrame, hne, hnlt]

/-- Witness for C2: with expected sequence number 2, a stale frame (sequence
number 1) is skipped leaving the result list unchanged, and a future frame
(sequence number 3) fails the call with a sequence mismatch. -/
theorem stale_frame_discarded_witness :
    recvLoop 2 ([5] : List Nat) [⟨⟨1, 0⟩, NlPayload.Done⟩] = Except.ok [5] ∧
    recvLoop 2 ([5] : List Nat) [⟨⟨3, 0⟩, NlPayload.Done⟩] =
      Except.error (RecvError.seqMismatch 3 2) := by
  constructor
  · have h := (stale_frame_discarded 2 ([5] : List Nat)
      ⟨⟨1, 0⟩, NlPayload.Done⟩ []).1 (by decide)
    simpa [recvLoop] using h
  · have h := (stale_frame_discarded 2 ([5] : List Nat)
      ⟨⟨3, 0⟩, NlPayload.Done⟩ []).2 (by decide) (by decide)
    simpa using h

theorem recvLoop_multipart_aux {α : Type} (seq : Nat) (msgs acc : List α) :
    recvLoop seq acc (msgs.map (mkMultiInner seq) ++ [mkDone α seq]) =
      Except.ok (acc ++ msgs) := by
  induction msgs generalizing acc with
  | nil => simp [recvLoop, processFrame, mkDone]
  | cons m ms ih =>
    have hmulti : (NLM_F_MULTIPART &&& NLM_F_MULTIPART) ≠ 0 := by decide
    simp only [List.map_cons, List.cons_append, recvLoop, processFrame,
      mkMultiInner, ne_eq, not_true_eq_false, if_false, ite_self]
    simp only [NLM_F_MULTIPART] at hmulti ⊢
    simp [hmulti, ih, List.append_assoc]

/-- C3: a session expecting sequence number `seq` that receives the inner
messages `msgs` (each flagged multipart, with matching sequence number)
followed by a `Done` marker returns success with exactly those messages, in
arrival order. -/
theorem multipart_reassembly {α : Type} (seq : Nat) (msgs : List α) :
    recvLoop seq [] (msgs.map (mkMultiInner seq) ++ [mkDone α seq]) =
      Except.ok msgs := by
  simpa using recvLoop_multipart_aux seq msgs []

/-- C4: when the receive path has accumulated results `acc` and the front of
the buffer fails the frame-header check (truncated or corrupt declared
length), the frame extractor discards the entire buffer and yields no frame
and no error, and — no further datagram arriving — the read loop terminates
returning `acc` to the caller, with no frame-parsing error surfaced. -/
theorem malformed_buffer_recovery {α : Type}
    (parse : List Nat → Option (Frame α)) (seq : Nat) (acc : List α)
    (src : List Nat) (hne : src ≠ []) (hbad : newCheckedLength src = none) :
    decode parse src = (none, []) ∧
    recvLoopBuf parse seq acc src [] = Except.ok acc := by
  have hdec : decode parse src = (none, []) := by
    rw [decode]
    simp only [List.isEmpty_iff, hne, if_false]
    split
    · rfl
    · rename_i len hlen
      rw [hbad] at hlen
      cases hlen
  have hnm : next_msg parse src ([] : List (List Nat)) = none := by
    rw [next_msg, hdec]
  refine ⟨hdec, ?_⟩
  rw [recvLoopBuf]
  split
  · rfl
  · rename_i msg src2 ds2 hsome
    rw [hnm] at hsome
    cases hsome

/-! ## Theorems for the address mapper -/

/-- C6: the prefix length placed in the request header by `addr_handle` is
the one of the address's own network; the local mask selection picks the
peer's mask when a peer network is supplied (and the own network's mask
otherwise); and only the prefix length is transmitted, never the selected
mask — the encoded message does not depend on the peer network's mask at
all, only on its address. -/
theorem addr_prefix_and_mask_selection (link : Nat) (addr : Addr) :
    (addr_handle_msg link addr).header.prefix_len = addr.ipnet.prefixLen ∧
    (∀ p, addr.peer = some p → addr_selected_mask addr = p.maskNat) ∧
    (addr.peer = none → addr_selected_mask addr = addr.ipnet.maskNat) ∧
    (∀ (a : IpAddr) (pl pl2 : Nat),
      addr_handle_msg link { addr with peer := some ⟨a, pl⟩ } =
        addr_handle_msg link { addr with peer := some ⟨a, pl2⟩ }) := by
  refine ⟨rfl, ?_, ?_, ?_⟩
  · intro p hp
    simp [addr_selected_mask, hp]
  · intro hp
    simp [addr_selected_mask, hp]
  · intro a pl pl2
    rfl

/-- Witness for C6: an address 10.0.0.1/24 with peer 10.0.0.2/16 transmits
prefix length 24 (its own), while the local mask selection picks the peer's
/16 mask. -/
theorem addr_prefix_and_mask_selection_witness :
    (addr_handle_msg 2 addrPeerSample).header.prefix_len = 24 ∧
    addr_selected_mask addrPeerSample = 4294901760 := by
  have h := addr_prefix_and_mask_selection 2 addrPeerSample
  refine ⟨h.1, ?_⟩
  have h2 := h.2.1 ⟨IpAddr.v4 0x0A000002, 16⟩ rfl
  rw [h2]
  decide

/-- C7: encoding an IPv4 address with no explicit broadcast emits a broadcast
attribute computed from the network (all host bits set) exactly when the
prefix length is below 31; for prefix length 31 or above no broadcast
attribute is emitted. -/
theorem addr_implicit_broadcast (link : Nat) (addr : Addr) (a p : Nat)
    (hip : addr.ipnet = ⟨IpAddr.v4 a, p⟩) (hb : addr.broadcast = none) :
    (p < 31 →
      AddrNla.Broadcast (ip_to_bytes (IpAddr.v4 (a ||| (2 ^ (32 - p) - 1)))) ∈
        (addr_handle_msg link addr).nlas) ∧
    (31 ≤ p → ∀ b, AddrNla.Broadcast b ∉ (addr_handle_msg link addr).nlas) := by
  constructor
  · intro hlt
    simp [addr_handle_msg, hip, hb, IpAddr.is_ipv4, IpNetwork.broadcastAddr, hlt]
  · intro hge b
    have hnlt : ¬ (p < 31) := by omega
    simp [addr_handle_msg, hip, hb, IpAddr.is_ipv4, hnlt]

/-- Witness for C7: encoding 192.168.1.0/24 with no explicit broadcast emits
the broadcast attribute 192.168.1.255. -/
theorem addr_implicit_broadcast_witness :
    AddrNla.Broadcast [192, 168, 1, 255] ∈
      (addr_handle_msg 1 { ipnet := ⟨IpAddr.v4 0xC0A80100, 24⟩ }).nlas := by
  have h := (addr_implicit_broadcast 1 { ipnet := ⟨IpAddr.v4 0xC0A80100, 24⟩ }
    0xC0A80100 24 rfl rfl).1 (by decide)
  have e : ip_to_bytes (IpAddr.v4 (0xC0A80100 ||| (2 ^ (32 - 24) - 1))) =
      [192, 168, 1, 255] := by decide
  rw [e] at h
  exact h

/-! ## Theorems for the route mapper -/

/-- C5 (failing input): the caller-supplied table never reaches the header.
`route_handle` computes the override (header table for 1 ≤ t ≤ 255, unspec
sentinel plus table attribute for t > 255) and then unconditionally
overwrites the header's table with `RT_TABLE_MAIN`, so for table 100 the
header carries 254 instead of 100, and for table 300 it carries 254 instead
of the unspecified sentinel 0 (the table attribute for t > 255 is still
appended). -/
theorem route_table_override_dead :
    (route_handle_msg { gw := some (IpAddr.v4 0x0A000001), table := some 100 }).map
        (fun m => m.header.table) = Except.ok RT_TABLE_MAIN ∧
    RT_TABLE_MAIN ≠ 100 ∧
    (route_handle_msg { gw := some (IpAddr.v4 0x0A000001), table := some 300 }).map
        (fun m => m.header.table) = Except.ok RT_TABLE_MAIN ∧
    RT_TABLE_MAIN ≠ RT_TABLE_UNSPEC ∧
    (route_handle_msg { gw := some (IpAddr.v4 0x0A000001), table := some 300 }).map
        (fun m => decide (RouteNla.Table 300 ∈ m.nlas)) = Except.ok true :=
  ⟨rfl, by decide, rfl, by decide, rfl⟩

/-- C8: in the list/dump filter of `route_list_filtered`, a route with the
kernel-cloned flag bit is dropped regardless of any filter (and never appears
in the returned list); a route in table 254 ("main") passes the table check
and is kept exactly when the output-interface filter keeps it; a route in any
other table is dropped when no filter is supplied or the filter mask's table
bit is unset, and otherwise is again decided by the output-interface
filter alone. -/
theorem route_filtering (f : Option Route) (mask : Nat) (r : Route) :
    (r.flags &&& RTM_F_CLONED ≠ 0 →
      route_keep f mask r = false ∧
      ∀ routes : List Route, r ∉ route_list_filter f mask routes) ∧
    (r.flags &&& RTM_F_CLONED = 0 → r.table = some RT_TABLE_MAIN →
      route_keep f mask r = oif_filter_keep f mask r) ∧
    (∀ t, r.flags &&& RTM_F_CLONED = 0 → r.table = some t → t ≠ RT_TABLE_MAIN →
      ((f = none ∨ mask &&& RT_FILTER_TABLE = 0) → route_keep f mask r = false) ∧
      (f.isSome → mask &&& RT_FILTER_TABLE ≠ 0 →
        route_keep f mask r = oif_filter_keep f mask r)) := by
  refine ⟨?_, ?_, ?_⟩
  · intro hcl
    refine ⟨by simp [route_keep, hcl], ?_⟩
    intro routes hmem
    have := List.of_mem_filter hmem
    simp [route_keep, hcl] at this
  · intro hcl htab
    simp [route_keep, hcl, htab]
  · intro t hcl htab hne
    constructor
    · rintro (hf | hmask)
      · simp [route_keep, hcl, htab, hne, hf]
      · cases f with
        | none => simp [route_keep, hcl, htab, hne]
        | some filter => simp [route_keep, hcl, htab, hne, hmask]
    · intro hsome hmask
      cases f with
      | none => simp at hsome
      | some filter => simp [route_keep, hcl, htab, hne, hmask]

/-- Witness for C8: a kernel-cloned route is dropped and absent from the
returned list; a main-table route with no filter is kept; an other-table
route with no filter is dropped. -/
theorem route_filtering_witness :
    route_keep none 0 { flags := 0x200 } = false ∧
    ({ flags := 0x200 } : Route) ∉ route_list_filter none 0 [{ flags := 0x200 }] ∧
    route_keep none 0 { table := some 254 } = true ∧
    route_keep none 0 { table := some 100 } = false := by
  have h1 := (route_filtering none 0 { flags := 0x200 }).1 (by decide)
  have h2 := (route_filtering none 0 { table := some 254 }).2.1 (by decide) rfl
  have h3 := ((route_filtering none 0 { table := some 100 }).2.2 100 (by decide)
    rfl (by decide)).1 (Or.inl rfl)
  exact ⟨h1.1, h1.2 _, by rw [h2]; decide, h3⟩

/-! ## Theorems for the VXLAN and set-MTU link paths -/

theorem mem_ite_nil {α : Type} (c : Prop) [Decidable c] (x y : α) :
    (x ∈ if c then [y] else []) ↔ c ∧ x = y := by
  split <;> simp_all

theorem mem_ite_pair {α : Type} (c : Prop) [Decidable c] (x y z : α) :
    (x ∈ if c then [y] else [z]) ↔ (c ∧ x = y) ∨ (¬ c ∧ x = z) := by
  split <;> simp_all

theorem vxlan_ageing_mem_iff (v : Vxlan) (a : Nat) :
    InfoVxlan.Ageing a ∈ add_vxlan_attrs_vec v ↔
      (v.no_age = true ∧ a = 0) ∨
      (v.no_age = false ∧ 0 < v.age ∧ a = v.age) := by
  cases hsrc : v.src_addr <;> cases hgrp : v.group <;> cases hno : v.no_age <;>
    simp only [add_vxlan_attrs_vec, hsrc, hgrp, hno, List.mem_append,
      List.mem_singleton, mem_ite_nil, mem_ite_pair, if_true, if_false] <;>
    simp

theorem vxlan_portrange_mem_iff (v : Vxlan) (pr : Nat × Nat) :
    InfoVxlan.PortRange pr ∈ add_vxlan_attrs_vec v ↔
      0 < v.port_low ∧ 0 < v.port_high ∧ pr = (v.port_low, v.port_high) := by
  cases hsrc : v.src_addr <;> cases hgrp : v.group <;> cases hno : v.no_age <;>
    simp only [add_vxlan_attrs_vec, hsrc, hgrp, hno, List.mem_append,
      List.mem_singleton, mem_ite_nil, mem_ite_pair, if_true, if_false] <;>
    simp [and_assoc]

/-- C9: in the VXLAN attribute vector, `no_age = true` emits an ageing
attribute of value 0 (even when the `age` field is positive, whose value is
then never emitted); with `no_age = false` an ageing attribute appears
exactly when `age` is positive; and a port-range attribute appears only when
both `port_low` and `port_high` are nonzero — with only `port_low` set, no
range attribute is emitted. -/
theorem vxlan_ageing_and_port_range (v : Vxlan) :
    (v.no_age = true →
      InfoVxlan.Ageing 0 ∈ add_vxlan_attrs_vec v ∧
      ∀ a, 0 < a → InfoVxlan.Ageing a ∉ add_vxlan_attrs_vec v) ∧
    (v.no_age = false →
      ((∃ a, InfoVxlan.Ageing a ∈ add_vxlan_attrs_vec v) ↔ 0 < v.age)) ∧
    (∀ pr, InfoVxlan.PortRange pr ∈ add_vxlan_attrs_vec v →
      0 < v.port_low ∧ 0 < v.port_high) ∧
    (0 < v.port_low → v.port_high = 0 →
      ∀ pr, InfoVxlan.PortRange pr ∉ add_vxlan_attrs_vec v) := by
  refine ⟨?_, ?_, ?_, ?_⟩
  · intro hno
    constructor
    · rw [vxlan_ageing_mem_iff]
      exact Or.inl ⟨hno, rfl⟩
    · intro a ha hmem
      rw [vxlan_ageing_mem_iff] at hmem
      rcases hmem with ⟨_, ha0⟩ | ⟨hfalse, _⟩
      · omega
      · rw [hno] at hfalse
        cases hfalse
  · intro hno
    constructor
    · rintro ⟨a, hmem⟩
      rw [vxlan_ageing_mem_iff] at hmem
      rcases hmem with ⟨htrue, _⟩ | ⟨_, hage, _⟩
      · rw [hno] at htrue
        cases htrue
      · exact hage
    · intro hage
      exact ⟨v.age, (vxlan_ageing_mem_iff v v.age).mpr (Or.inr ⟨hno, hage, rfl⟩)⟩
  · intro pr hmem
    have := (vxlan_portrange_mem_iff v pr).mp hmem
    exact ⟨this.1, this.2.1⟩
  · intro hlow hhigh pr hmem
    have := (vxlan_portrange_mem_iff v pr).mp hmem
    omega

/-- Witness for C9: with `no_age = true`, `age = 7` and only `port_low` set,
the vector carries ageing 0, no ageing 7, and no port range. -/
theorem vxlan_ageing_and_port_range_witness :
    InfoVxlan.Ageing 0 ∈ add_vxlan_attrs_vec { no_age := true, age := 7, port_low := 5 } ∧
    InfoVxlan.Ageing 7 ∉ add_vxlan_attrs_vec { no_age := true, age := 7, port_low := 5 } ∧
    InfoVxlan.PortRange (5, 0) ∉ add_vxlan_attrs_vec { no_age := true, age := 7, port_low := 5 } := by
  have h := vxlan_ageing_and_port_range { no_age := true, age := 7, port_low := 5 }
  have h1 := h.1 rfl
  exact ⟨h1.1, h1.2 7 (by decide), h.2.2.2 (by decide) rfl (5, 0)⟩

/-- C10: the set-link request built by `link_set_mtu` carries, besides the
MTU attribute, the multicast interface flag bit in both the header's flags
and its change mask — every set-MTU call also asks the kernel to set the
multicast flag. -/
theorem link_set_mtu_sets_multicast (index mtu : Nat) :
    (link_set_mtu_msg index mtu).header.flags &&& IFF_MULTICAST ≠ 0 ∧
    (link_set_mtu_msg index mtu).header.change_mask &&& IFF_MULTICAST ≠ 0 ∧
    LinkNla.Mtu mtu ∈ (link_set_mtu_msg index mtu).nlas := by
  refine ⟨?_, ?_, ?_⟩
  · show (0 ||| IFF_MULTICAST) &&& IFF_MULTICAST ≠ 0
    decide
  · show (0 ||| IFF_MULTICAST) &&& IFF_MULTICAST ≠ 0
    decide
  · simp [link_set_mtu_msg]

/-- Witness for C4: a three-byte truncated buffer (too short to even hold the
length field) is dropped whole, and the loop returns the single already
accumulated result. -/
theorem malformed_buffer_recovery_witness :
    decode (noParse Nat) [1, 2, 3] = (none, []) ∧
    recvLoopBuf (noParse Nat) 1 [7] [1, 2, 3] [] = Except.ok [7] :=
  malformed_buffer_recovery (noParse Nat) 1 [7] [1, 2, 3] (by decide)
    (by decide)

end NetlinkNg
